import Mathlib

/-!
# Verification of the langgraph-chatbot routing / orchestration core

Shallow embedding of the Python sources under `src/`:
* `src/agents/search_agent.py`   — `SearchAgent`
* `src/agents/document_agent.py` — `DocumentAgent`
* `src/agents/chat_agent.py`     — `ChatAgent` and its LangGraph workflow
* `src/utils/memory_manager.py`  — `ConversationMemoryManager`, `MemoryStore`
* `src/api/main.py`              — FastAPI endpoints (`/chat`, `/sessions`, …)
* `src/config/settings.py`       — `Settings`

External calls (the OpenAI model, the Tavily search provider, the Chroma
vector index) are modelled as oracle inputs: `Option` values where `none`
is the call raising an exception and `some v` is a successful reply `v`.
Python strings are Lean `String`s; the Python string operations used by the
code (`.upper()`, `.strip()`, slicing `[:n]`, the `in` substring test) are
embedded as explicit functions over the character list so that every
definition evaluates by `decide`/`rfl`.  Relevance scores (Python floats,
used only for one order comparison against the literal `0.8`) are modelled
as rationals.
-/

/-! ## Python string primitives -/

/-- Python `pattern in s` (substring containment), on character lists:
`pat` occurs contiguously inside `l`. -/
def listContains (l pat : List Char) : Bool :=
  match l with
  | [] => pat.isEmpty
  | _ :: t => pat.isPrefixOf l || listContains t pat

/-- Python `pattern in s` on strings. -/
def pyContains (s pat : String) : Bool :=
  listContains s.data pat.data

/-- Python `s.upper()` (ASCII case mapping suffices for the router tokens). -/
def pyUpper (s : String) : String :=
  ⟨s.data.map Char.toUpper⟩

/-- Python `s.strip()`: drop whitespace at both ends. -/
def pyStrip (s : String) : String :=
  ⟨((s.data.dropWhile Char.isWhitespace).reverse.dropWhile Char.isWhitespace).reverse⟩

/-- Python `s[:n]`: the first `n` characters of `s`. -/
def pySlice (s : String) (n : Nat) : String :=
  ⟨s.data.take n⟩

/-! ## Settings (`src/config/settings.py`) -/

/-- `Settings.memory_window` default. -/
def memory_window : Nat := 10

/-- The document-relevance threshold literal `0.8` of
`DocumentAgent.query_documents` (`document_agent.py:47`), as the exact
rational 8/10. -/
def relevance_threshold : ℚ := mkRat 8 10

/-! ## Data model: sources and adapter results -/

/-- One Tavily provider result (`{title, url, content}` as read by
`search_agent.py:52-59`). -/
structure SearchResult where
  title : String
  url : String
  content : String
deriving DecidableEq, Repr

/-- A web source dict built by `SearchAgent.search_and_respond`. -/
structure WebSource where
  title : String
  url : String
  snippet : String
deriving DecidableEq, Repr

/-- A retrieved document chunk: `page_content` plus the metadata fields the
code reads (`doc.metadata.get("source"/"chunk_id"/"file_type")`). -/
structure Document where
  page_content : String
  source : String
  chunk_id : Nat
  file_type : String
deriving DecidableEq, Repr

/-- A document source dict built by `DocumentAgent._prepare_sources`. -/
structure DocSource where
  source : String
  chunk_id : Nat
  file_type : String
  relevance_score : ℚ
  preview : String
deriving DecidableEq, Repr

/-- A provenance record: the `sources` lists mix web dicts and document
dicts, so they are a sum here. -/
inductive Source where
  | web (w : WebSource)
  | doc (d : DocSource)
deriving DecidableEq, Repr

/-- The uniform adapter result dict: `{"success": ..., "response": ...,
"sources": [...]}` (extra keys like `search_performed` / `documents_found`
carry no control flow downstream and are omitted). -/
structure AdapterResult where
  success : Bool
  response : String
  sources : List Source
deriving DecidableEq, Repr

/-! ## Search adapter (`src/agents/search_agent.py`) -/

/-- The web source built for one provider result
(`search_agent.py:52-59`): the snippet is `content[:200] + "..."`,
unconditionally. -/
def mk_web_source (r : SearchResult) : WebSource :=
  ⟨r.title, r.url, pySlice r.content 200 ++ "..."⟩

/-- `SearchAgent._perform_search` (`search_agent.py:76-87`): a provider
exception is caught and converted to the empty result list. -/
def perform_search (provider : Option (List SearchResult)) : List SearchResult :=
  match provider with
  | none => []
  | some rs => rs

set_option linter.unusedVariables false in
/-- `SearchAgent.search_and_respond` (`search_agent.py:31-74`).
`provider` is the Tavily call's outcome, `llm` the synthesis model call's
outcome; the Python `query` argument only feeds prompt text.  Failure
responses interpolate `str(e)`, the dynamic exception text; only their
fixed prefix is modelled. -/
def search_and_respond (query : String) (provider : Option (List SearchResult))
    (llm : Option String) : AdapterResult :=
  let results := perform_search provider
  if results.isEmpty then
    { success := false
      response := "I couldn't find relevant information for your query. Please try rephrasing your question."
      sources := [] }
  else
    match llm with
    | none =>
        { success := false
          response := "I encountered an error while searching: "
          sources := [] }
    | some reply =>
        { success := true
          response := pyStrip reply
          sources := results.map (fun r => Source.web (mk_web_source r)) }

/-! ## Document adapter (`src/agents/document_agent.py`) -/

/-- One source dict of `DocumentAgent._prepare_sources`
(`document_agent.py:129-141`): the preview appends `"..."` only when the
chunk exceeds 200 characters. -/
def prepare_source (p : Document × ℚ) : DocSource :=
  { source := p.1.source
    chunk_id := p.1.chunk_id
    file_type := p.1.file_type
    relevance_score := p.2
    preview :=
      if 200 < p.1.page_content.length then pySlice p.1.page_content 200 ++ "..."
      else p.1.page_content }

/-- The relevance filter of `DocumentAgent.query_documents`
(`document_agent.py:46-49`): keep `score < 0.8`. -/
def filter_relevant (docs : List (Document × ℚ)) : List (Document × ℚ) :=
  docs.filter (fun p => decide (p.2 < relevance_threshold))

set_option linter.unusedVariables false in
/-- `DocumentAgent.query_documents` (`document_agent.py:29-83`).
`index` is the vector-store similarity search's outcome (scored matches),
`llm` the synthesis model call's outcome.  Failure responses interpolate
`str(e)`, the dynamic exception text; only their fixed prefix is
modelled. -/
def query_documents (query chat_history : String)
    (index : Option (List (Document × ℚ))) (llm : Option String) : AdapterResult :=
  match index with
  | none =>
      { success := false
        response := "Error accessing documents: "
        sources := [] }
  | some relevant_docs =>
      if relevant_docs.isEmpty then
        { success := true
          response := "I don't have any relevant documents to answer your question. Please upload some documents first."
          sources := [] }
      else
        let filtered_docs := filter_relevant relevant_docs
        if filtered_docs.isEmpty then
          { success := true
            response := "I couldn't find sufficiently relevant information in the uploaded documents to answer your question."
            sources := [] }
        else
          match llm with
          | none =>
              { success := false
                response := "Error accessing documents: "
                sources := [] }
          | some reply =>
              { success := true
                response := pyStrip reply
                sources := filtered_docs.map (fun p => Source.doc (prepare_source p)) }

/-! ## Router and workflow state (`src/agents/chat_agent.py`) -/

/-- The four routing outcomes of `route_query`. -/
inductive RouteDecision where
  | search
  | documents
  | both
  | direct
deriving DecidableEq, Repr

/-- `route_query` (`chat_agent.py:68-88`): the model reply is
`.strip().upper()`-normalised, then tested for the literal tokens by
substring containment in the order `SEARCH`, `DOCUMENTS`, `BOTH`; a
failing model call (`none`) is caught and yields `direct`. -/
def route_query (reply : Option String) : RouteDecision :=
  match reply with
  | none => RouteDecision.direct
  | some r =>
      let decision := pyUpper (pyStrip r)
      if pyContains decision "SEARCH" then RouteDecision.search
      else if pyContains decision "DOCUMENTS" then RouteDecision.documents
      else if pyContains decision "BOTH" then RouteDecision.both
      else RouteDecision.direct

/-- The LangGraph `ChatState` dict (`chat_agent.py:13-22`).  The
`search_results` / `document_results` keys start as the empty dict `{}`
(here `none`); `needs_search` / `needs_documents` and the unused
`response` key carry no control flow and are omitted. -/
structure ChatState where
  query : String
  chat_history : String
  search_results : Option AdapterResult
  document_results : Option AdapterResult
  final_response : String
  sources : List Source
deriving DecidableEq, Repr

/-- The oracle bundle: one `Option` per external call a single graph run
can make.  `none` models that call raising / timing out. -/
structure LLMOracle where
  routeReply : Option String
  searchProvider : Option (List SearchResult)
  searchLlm : Option String
  docIndex : Option (List (Document × ℚ))
  docLlm : Option String
  finalLlm : Option String
  directLlm : Option String
deriving Repr

/-- `search_node` (`chat_agent.py:90-100`): store the search adapter's
result in the state. -/
def search_node (o : LLMOracle) (s : ChatState) : ChatState :=
  { s with search_results := some (search_and_respond s.query o.searchProvider o.searchLlm) }

/-- `document_node` (`chat_agent.py:102-114`): store the document
adapter's result in the state. -/
def document_node (o : LLMOracle) (s : ChatState) : ChatState :=
  { s with document_results := some (query_documents s.query s.chat_history o.docIndex o.docLlm) }

/-- `both_node` (`chat_agent.py:116-120`): run the search node, then the
document node, unconditionally. -/
def both_node (o : LLMOracle) (s : ChatState) : ChatState :=
  document_node o (search_node o s)

/-- `direct_response_node` (`chat_agent.py:122-136`): one model call on
query + history; on model failure the fixed apology text is stored (and,
as in the code's `except` branch, `sources` is left untouched). -/
def direct_response_node (llm : Option String) (s : ChatState) : ChatState :=
  match llm with
  | some reply => { s with final_response := pyStrip reply, sources := [] }
  | none =>
      { s with final_response := "I apologize, but I encountered an error processing your request." }

/-- The text collected from the search adapter by `combine_results_node`
(`chat_agent.py:144-146`): the response when `success` is truthy, else
the initial empty string. -/
def search_info_of (s : ChatState) : String :=
  match s.search_results with
  | some r => if r.success then r.response else ""
  | none => ""

/-- The text collected from the document adapter by `combine_results_node`
(`chat_agent.py:147-149`). -/
def document_info_of (s : ChatState) : String :=
  match s.document_results with
  | some r => if r.success then r.response else ""
  | none => ""

/-- The source list gathered by `combine_results_node`: search sources
first, then document sources, each taken whenever that adapter's
`success` is truthy. -/
def gathered_sources (s : ChatState) : List Source :=
  (match s.search_results with
   | some r => if r.success then r.sources else []
   | none => []) ++
  (match s.document_results with
   | some r => if r.success then r.sources else []
   | none => [])

/-- `combine_results_node` (`chat_agent.py:138-166`): if both collected
info texts are empty (Python falsy), fall back to `direct_response_node`;
otherwise issue the final synthesis call (`finalLlm`), whose failure is
caught by the `except` branch, which also falls back to
`direct_response_node`. -/
def combine_results_node (finalLlm directLlm : Option String) (s : ChatState) : ChatState :=
  if search_info_of s = "" ∧ document_info_of s = "" then
    direct_response_node directLlm s
  else
    match finalLlm with
    | none => direct_response_node directLlm s
    | some reply =>
        { s with final_response := pyStrip reply, sources := gathered_sources s }

/-- The compiled graph's `invoke` (`chat_agent.py:168-196`): the
conditional entry point runs `route_query`, the chosen branch runs, and
`search`/`documents`/`both` continue into `combine`. -/
def run_graph (o : LLMOracle) (s : ChatState) : ChatState :=
  match route_query o.routeReply with
  | RouteDecision.search =>
      combine_results_node o.finalLlm o.directLlm (search_node o s)
  | RouteDecision.documents =>
      combine_results_node o.finalLlm o.directLlm (document_node o s)
  | RouteDecision.both =>
      combine_results_node o.finalLlm o.directLlm (both_node o s)
  | RouteDecision.direct =>
      direct_response_node o.directLlm s

/-! ## Memory manager (`src/utils/memory_manager.py`) -/

/-- One stored message: `HumanMessage` / `AIMessage` in
`chat_memory.messages`, and the parallel `{"type": "human"/"ai",
"content": ...}` entries of `_message_history` (timestamps, a wall-clock
effect, are not modelled; `last_activity` is therefore out of scope). -/
structure Message where
  isHuman : Bool
  content : String
deriving DecidableEq, Repr

/-- `ConversationMemoryManager` (`memory_manager.py:9-96`):
`messages` is `memory.chat_memory.messages` (the full, unbounded message
log of the `ConversationBufferWindowMemory`), `message_history` is
`self._message_history`, and `k` is the configured window
(`settings.memory_window`). -/
structure ConversationMemoryManager where
  session_id : String
  k : Nat
  messages : List Message
  message_history : List Message
deriving DecidableEq, Repr

namespace ConversationMemoryManager

/-- `ConversationMemoryManager.__init__`: both logs start empty. -/
def fresh (session_id : String) : ConversationMemoryManager :=
  ⟨session_id, memory_window, [], []⟩

/-- `add_user_message` (`memory_manager.py:19-30`). -/
def add_user_message (m : ConversationMemoryManager) (text : String) :
    ConversationMemoryManager :=
  { m with
    messages := m.messages ++ [⟨true, text⟩]
    message_history := m.message_history ++ [⟨true, text⟩] }

/-- `add_ai_message` (`memory_manager.py:32-43`). -/
def add_ai_message (m : ConversationMemoryManager) (text : String) :
    ConversationMemoryManager :=
  { m with
    messages := m.messages ++ [⟨false, text⟩]
    message_history := m.message_history ++ [⟨false, text⟩] }

/-- `get_conversation_history` (`memory_manager.py:45-51`): returns
`memory.chat_memory.messages` — the full log, not the window. -/
def get_conversation_history (m : ConversationMemoryManager) : List Message :=
  m.messages

/-- `get_formatted_history` (`memory_manager.py:53-66`): renders every
message of `get_conversation_history` as `"Human: ..."` / `"Assistant:
..."` followed by a newline, in order. -/
def get_formatted_history (m : ConversationMemoryManager) : String :=
  (get_conversation_history m).foldl
    (fun acc msg =>
      acc ++ (if msg.isHuman then "Human: " else "Assistant: ") ++ msg.content ++ "\n")
    ""

/-- The windowed buffer the `ConversationBufferWindowMemory` itself would
expose through `load_memory_variables` (the last `k` interactions, i.e.
`messages[-2*k:]`); `get_formatted_history` does NOT consult it. -/
def window_buffer (m : ConversationMemoryManager) : List Message :=
  if 0 < m.k then m.messages.drop (m.messages.length - 2 * m.k) else []

/-- `clear_memory` (`memory_manager.py:68-75`). -/
def clear_memory (m : ConversationMemoryManager) : ConversationMemoryManager :=
  { m with messages := [], message_history := [] }

/-- `get_session_summary` (`memory_manager.py:90-96`): `message_count` is
`len(self._message_history)`. -/
def message_count (m : ConversationMemoryManager) : Nat :=
  m.message_history.length

end ConversationMemoryManager

/-! ## Chat façade (`ChatAgent.chat`) and API layer (`src/api/main.py`) -/

/-- The dict returned by `ChatAgent.chat` (`chat_agent.py:230-235`). -/
structure ChatResult where
  success : Bool
  response : String
  sources : List Source
  session_id : String
deriving DecidableEq, Repr

namespace ChatAgent

/-- `ChatAgent.chat` (`chat_agent.py:198-243`): read the formatted
history, run the graph from the initial state, then append the user turn
and the assistant turn (the final answer text, whatever branch produced
it) to memory, and return `success=True` with that text.  Every provider
/ model failure is absorbed inside the graph nodes (each node has its own
`except`), so the outer `except` — the only path producing
`success=False` — corresponds to no modelled behaviour; the model's
`chat` is total. -/
def chat (o : LLMOracle) (mem : ConversationMemoryManager) (query : String) :
    ChatResult × ConversationMemoryManager :=
  let chat_history := mem.get_formatted_history
  let initial_state : ChatState :=
    { query := query
      chat_history := chat_history
      search_results := none
      document_results := none
      final_response := ""
      sources := [] }
  let result := run_graph o initial_state
  let final_response := result.final_response
  let mem1 := (mem.add_user_message query).add_ai_message final_response
  (⟨true, final_response, result.sources, mem.session_id⟩, mem1)

/-- A sequence of completed `chat` calls on one `ChatAgent`'s memory
manager (each call may see a different oracle). -/
def chat_n (os : List (LLMOracle × String)) (mem : ConversationMemoryManager) :
    ConversationMemoryManager :=
  os.foldl (fun m oq => (chat oq.1 m oq.2).2) mem

end ChatAgent

/-- The FastAPI process state relevant to sessions: the global
`memory_store._sessions` mapping (`memory_manager.py:98-120`). -/
structure AppState where
  memory_store : List (String × ConversationMemoryManager)
deriving Repr

/-- `POST /chat` (`main.py:43-54`): the handler constructs
`ChatAgent(request.session_id)`, whose `__init__`
(`chat_agent.py:25-27`) builds a FRESH `ConversationMemoryManager` — it
does not call `memory_store.get_session_memory` — runs `chat`, and
discards the agent.  The global `memory_store` is neither read nor
written by this endpoint, so the server state is returned unchanged. -/
def chat_endpoint (o : LLMOracle) (st : AppState) (session_id query : String) :
    ChatResult × AppState :=
  ((ChatAgent.chat o (ConversationMemoryManager.fresh session_id) query).1, st)

/-- The prompt history that a `POST /chat` call for `session_id` reads
(`chat_agent.py:203` via the manager built at `chat_agent.py:27`): the
formatted history of the freshly constructed manager, independent of the
server state a previous call left behind. -/
def chat_endpoint_history_read (_st : AppState) (session_id : String) : String :=
  ConversationMemoryManager.get_formatted_history
    (ConversationMemoryManager.fresh session_id)

/-! ## Concrete fixtures used by witnesses and counterexamples -/

/-- A document chunk fixture. -/
def docA : Document := ⟨"content of the report", "report.txt", 0, "txt"⟩

/-- The initial `ChatState` built by `ChatAgent.chat` for a given query
and history (`chat_agent.py:206-216`). -/
def initial_chat_state (q ch : String) : ChatState :=
  { query := q
    chat_history := ch
    search_results := none
    document_results := none
    final_response := ""
    sources := [] }

/-- The total-outage oracle: every external call fails. -/
def outage_oracle : LLMOracle := ⟨none, none, none, none, none, none, none⟩

/-! ## Helper lemmas -/

/-- Every source the document adapter ever returns is document-origin. -/
theorem query_documents_sources_are_docs (q ch : String)
    (idx : Option (List (Document × ℚ))) (llm : Option String) :
    ∀ x ∈ (query_documents q ch idx llm).sources, ∃ ds, x = Source.doc ds := by
  intro x hx
  unfold query_documents at hx
  cases idx with
  | none => simp at hx
  | some docs =>
      by_cases h1 : docs.isEmpty
      · simp [h1] at hx
      · by_cases h2 : (filter_relevant docs).isEmpty
        · simp [h1, h2] at hx
        · cases llm with
          | none => simp [h1, h2] at hx
          | some reply =>
              simp [h1, h2] at hx
              obtain ⟨p, w, hmem, hxe⟩ := hx
              exact ⟨_, hxe.symm⟩

/-- Running `chat_n` adds two history entries per completed call. -/
theorem chat_n_message_count (os : List (LLMOracle × String))
    (mem : ConversationMemoryManager) :
    (ChatAgent.chat_n os mem).message_count = mem.message_count + 2 * os.length := by
  induction os generalizing mem with
  | nil => simp [ChatAgent.chat_n, ConversationMemoryManager.message_count]
  | cons oq rest ih =>
      have hstep : (ChatAgent.chat_n (oq :: rest) mem)
          = ChatAgent.chat_n rest ((ChatAgent.chat oq.1 mem oq.2).2) := by
        simp [ChatAgent.chat_n]
      rw [hstep, ih]
      simp [ChatAgent.chat, ConversationMemoryManager.message_count,
        ConversationMemoryManager.add_user_message,
        ConversationMemoryManager.add_ai_message]
      ring

/-! ## Claim theorems -/

/-- Claim C2: the router classifies the model reply by case-insensitive
substring containment in the fixed priority order `SEARCH`, then
`DOCUMENTS`, then `BOTH`, else `Direct`; the four forced replies of the
spec classify as stated, and a failed routing call yields `Direct`. -/
theorem C2_router_priority :
    route_query none = RouteDecision.direct
    ∧ route_query (some "I recommend SEARCH") = RouteDecision.search
    ∧ route_query (some "Use DOCUMENTS please") = RouteDecision.documents
    ∧ route_query (some "BOTH sources needed") = RouteDecision.both
    ∧ route_query (some "just say hi") = RouteDecision.direct
    ∧ (∀ r : String, pyContains (pyUpper (pyStrip r)) "SEARCH" = true →
        route_query (some r) = RouteDecision.search)
    ∧ (∀ r : String, pyContains (pyUpper (pyStrip r)) "SEARCH" = false →
        pyContains (pyUpper (pyStrip r)) "DOCUMENTS" = true →
        route_query (some r) = RouteDecision.documents)
    ∧ (∀ r : String, pyContains (pyUpper (pyStrip r)) "SEARCH" = false →
        pyContains (pyUpper (pyStrip r)) "DOCUMENTS" = false →
        pyContains (pyUpper (pyStrip r)) "BOTH" = true →
        route_query (some r) = RouteDecision.both)
    ∧ (∀ r : String, pyContains (pyUpper (pyStrip r)) "SEARCH" = false →
        pyContains (pyUpper (pyStrip r)) "DOCUMENTS" = false →
        pyContains (pyUpper (pyStrip r)) "BOTH" = false →
        route_query (some r) = RouteDecision.direct) := by
  refine ⟨by decide, by decide, by decide, by decide, by decide, ?_, ?_, ?_, ?_⟩
  · intro r h
    simp [route_query, h]
  · intro r h1 h2
    simp [route_query, h1, h2]
  · intro r h1 h2 h3
    simp [route_query, h1, h2, h3]
  · intro r h1 h2 h3
    simp [route_query, h1, h2, h3]

/-- Witness for C2: the conditional priority clauses applied at concrete
replies. -/
theorem C2_router_priority_witness :
    (pyContains (pyUpper (pyStrip "go with SEARCH here")) "SEARCH" = true
      ∧ route_query (some "go with SEARCH here") = RouteDecision.search)
    ∧ (pyContains (pyUpper (pyStrip "documents only")) "SEARCH" = false
      ∧ pyContains (pyUpper (pyStrip "documents only")) "DOCUMENTS" = true
      ∧ route_query (some "documents only") = RouteDecision.documents)
    ∧ route_query (some "need both") = RouteDecision.both
    ∧ route_query (some "nothing") = RouteDecision.direct :=
  ⟨⟨by decide, C2_router_priority.2.2.2.2.2.1 "go with SEARCH here" (by decide)⟩,
   ⟨by decide, by decide,
    C2_router_priority.2.2.2.2.2.2.1 "documents only" (by decide) (by decide)⟩,
   C2_router_priority.2.2.2.2.2.2.2.1 "need both" (by decide) (by decide) (by decide),
   C2_router_priority.2.2.2.2.2.2.2.2 "nothing" (by decide) (by decide) (by decide)⟩

/-- The document-adapter outcome when the relevance filter removes every
candidate (one match scored 0.9, threshold 0.8). -/
def c1_doc_result : AdapterResult :=
  query_documents "q" "" (some [(docA, mkRat 9 10)]) (some "SYNTH")

/-- A `ChatState` reaching Combine from the Documents branch with the
filtered-to-empty outcome. -/
def c1_state : ChatState :=
  { initial_chat_state "q" "" with document_results := some c1_doc_result }

/-- Counterexample to Claim C1: when the document adapter's relevance
filter removes all candidates, the resulting outcome has `success=True`
and a non-empty "nothing relevant" text, so `combine_results_node` does
NOT fall back to the Direct branch: it issues the final synthesis call
(returning its reply `"FINAL"`, not the Direct branch's `"DIRECT"`) and
returns that answer with empty sources. -/
theorem C1_no_fallback_counterexample :
    c1_doc_result.success = true
    ∧ c1_doc_result.sources = []
    ∧ c1_doc_result.response ≠ ""
    ∧ (combine_results_node (some "FINAL") (some "DIRECT") c1_state).final_response = "FINAL"
    ∧ (direct_response_node (some "DIRECT") c1_state).final_response = "DIRECT"
    ∧ combine_results_node (some "FINAL") (some "DIRECT") c1_state
        ≠ direct_response_node (some "DIRECT") c1_state
    ∧ (combine_results_node (some "FINAL") (some "DIRECT") c1_state).sources = [] := by
  decide

/-- Claim C1 (amended): Combine collects the texts of adapter results
whose `ok` flag is true, and falls back to the Direct branch exactly when
every collected text is empty (in particular when both adapters failed).
The document adapter's filtered-to-empty outcome, however, is `ok=true`
with a non-empty "nothing relevant" text, so Combine treats it as usable:
it does not fall back, and returns the final synthesis together with the
gathered (empty) source list. -/
theorem C1_combine_fallback (f d : Option String) (s : ChatState) (rep : String) :
    (search_info_of s = "" → document_info_of s = "" →
      combine_results_node f d s = direct_response_node d s)
    ∧ (document_info_of s ≠ "" → f = some rep →
        (combine_results_node f d s).final_response = pyStrip rep
        ∧ (combine_results_node f d s).sources = gathered_sources s)
    ∧ (∀ (q ch : String) (docs : List (Document × ℚ)) (dllm : Option String),
        docs ≠ [] → filter_relevant docs = [] →
        document_info_of
          { s with document_results := some (query_documents q ch (some docs) dllm) } ≠ "") := by
  refine ⟨?_, ?_, ?_⟩
  · intro h1 h2
    simp [combine_results_node, h1, h2]
  · intro hd hf
    subst hf
    constructor
    · simp [combine_results_node, hd]
    · simp [combine_results_node, hd]
  · intro q ch docs dllm hne hfil
    cases docs with
    | nil => exact absurd rfl hne
    | cons p rest =>
        simp [document_info_of, query_documents, hfil]

/-- Witness for C1 (amended): the fallback clause at a state where both
adapters are absent, and the no-fallback clause at the filtered-to-empty
state. -/
theorem C1_combine_fallback_witness :
    (search_info_of (initial_chat_state "q" "") = ""
      ∧ document_info_of (initial_chat_state "q" "") = ""
      ∧ combine_results_node (some "FINAL") (some "DIR") (initial_chat_state "q" "")
          = direct_response_node (some "DIR") (initial_chat_state "q" ""))
    ∧ (document_info_of c1_state ≠ ""
      ∧ ((combine_results_node (some "FINAL") (some "DIR") c1_state).final_response
            = pyStrip "FINAL"
        ∧ (combine_results_node (some "FINAL") (some "DIR") c1_state).sources
            = gathered_sources c1_state))
    ∧ document_info_of
        { c1_state with document_results := some (query_documents "qq" "" (some [(docA, mkRat 9 10)]) (some "SYNTH")) } ≠ "" :=
  ⟨⟨by decide, by decide,
    (C1_combine_fallback (some "FINAL") (some "DIR") (initial_chat_state "q" "") "FINAL").1
      (by decide) (by decide)⟩,
   ⟨by decide,
    (C1_combine_fallback (some "FINAL") (some "DIR") c1_state "FINAL").2.1
      (by decide) rfl⟩,
   (C1_combine_fallback (some "FINAL") (some "DIR") c1_state "FINAL").2.2
     "qq" "" [(docA, mkRat 9 10)] (some "SYNTH") (by decide) (by decide)⟩

/-- A successful Direct-branch oracle for the C3 evaluation: the routing
model answers `"DIRECT"`, the direct-response model answers a greeting. -/
def c3_oracle : LLMOracle :=
  ⟨some "DIRECT", none, none, none, none, none, some "Hello! How can I help?"⟩

/-- Claim C3 (code bug): session history is NOT persisted across `/chat`
calls.  `chat_endpoint` builds a fresh `ChatAgent`, whose `__init__`
constructs a fresh `ConversationMemoryManager` instead of calling
`memory_store.get_session_memory`; the endpoint neither reads nor writes
the global `memory_store`.  Hence, after a first completed call for
session `"s1"` with query `"hello"`, the server state is unchanged and
the prompt history read by the next call for `"s1"` is empty — it does
not contain the `"hello"` turn, contradicting the claimed lifecycle. -/
theorem C3_history_not_persisted :
    (∀ (o : LLMOracle) (st : AppState) (sid q : String),
      (chat_endpoint o st sid q).2 = st
      ∧ chat_endpoint_history_read (chat_endpoint o st sid q).2 sid = "")
    ∧ (chat_endpoint c3_oracle ⟨[]⟩ "s1" "hello").1.success = true
    ∧ (chat_endpoint c3_oracle ⟨[]⟩ "s1" "hello").1.response = "Hello! How can I help?"
    ∧ (chat_endpoint c3_oracle ⟨[]⟩ "s1" "hello").2.memory_store
        = ([] : List (String × ConversationMemoryManager))
    ∧ pyContains
        (chat_endpoint_history_read (chat_endpoint c3_oracle ⟨[]⟩ "s1" "hello").2 "s1")
        "hello" = false := by
  refine ⟨?_, by decide, by decide, by decide, by decide⟩
  intro o st sid q
  exact ⟨rfl, rfl⟩

/-- Counterexample to Claim C4: when the search provider returns a valid
but empty result set, `SearchAgent.search_and_respond` returns
`success=False` — the same failure outcome as a provider error — not the
claimed `ok=true` successful-empty outcome. -/
theorem C4_search_empty_counterexample :
    (search_and_respond "What is new" (some []) (some "reply")).success = false := by
  decide

/-- Claim C4 (amended): only the document adapter distinguishes
successful-empty from failure.  For the document adapter, an empty match
list and a filtered-to-empty list both yield `ok=true` with an explicit
text and empty sources.  The search adapter, however, converts provider
errors to an empty result list and then returns `ok=false` for any empty
result list, so a valid-but-empty provider response is indistinguishable
from a provider failure and is reported as `ok=false`. -/
theorem C4_successful_empty (q ch : String) (llm : Option String) :
    ((query_documents q ch (some []) llm).success = true
      ∧ (query_documents q ch (some []) llm).sources = []
      ∧ (query_documents q ch (some []) llm).response ≠ "")
    ∧ (∀ docs : List (Document × ℚ), docs ≠ [] → filter_relevant docs = [] →
        (query_documents q ch (some docs) llm).success = true
        ∧ (query_documents q ch (some docs) llm).sources = []
        ∧ (query_documents q ch (some docs) llm).response ≠ "")
    ∧ (∀ provider : Option (List SearchResult), perform_search provider = [] →
        (search_and_respond q provider llm).success = false) := by
  refine ⟨⟨by simp [query_documents], by simp [query_documents], by simp [query_documents]⟩, ?_, ?_⟩
  · intro docs hne hfil
    cases docs with
    | nil => exact absurd rfl hne
    | cons p rest =>
        refine ⟨?_, ?_, ?_⟩ <;> simp [query_documents, hfil]
  · intro provider hempty
    simp [search_and_respond, hempty]

/-- Witness for C4 (amended): the document adapter's two successful-empty
outcomes and the search adapter's empty-result failure at concrete
inputs. -/
theorem C4_successful_empty_witness :
    ((query_documents "q" "" (some []) (some "r")).success = true
      ∧ (query_documents "q" "" (some []) (some "r")).sources = []
      ∧ (query_documents "q" "" (some []) (some "r")).response ≠ "")
    ∧ ((query_documents "q" "" (some [(docA, mkRat 9 10)]) (some "r")).success = true
      ∧ (query_documents "q" "" (some [(docA, mkRat 9 10)]) (some "r")).sources = []
      ∧ (query_documents "q" "" (some [(docA, mkRat 9 10)]) (some "r")).response ≠ "")
    ∧ (search_and_respond "q" (some []) (some "r")).success = false :=
  ⟨(C4_successful_empty "q" "" (some "r")).1,
   (C4_successful_empty "q" "" (some "r")).2.1 [(docA, mkRat 9 10)] (by decide) (by decide),
   (C4_successful_empty "q" "" (some "r")).2.2 (some []) (by decide)⟩

/-- Claim C5: every completed `chat` call appends exactly one user turn
and one assistant turn — the assistant turn carrying exactly the answer
text the caller received, whichever branch (including fallbacks) produced
it — so after any sequence of completed calls on a fresh session,
`summary()`'s `message_count` equals twice the number of calls. -/
theorem C5_history_appends :
    (∀ (o : LLMOracle) (mem : ConversationMemoryManager) (q : String),
      ((ChatAgent.chat o mem q).2).message_history
          = mem.message_history
              ++ [⟨true, q⟩, ⟨false, (ChatAgent.chat o mem q).1.response⟩]
      ∧ ((ChatAgent.chat o mem q).2).message_count = mem.message_count + 2)
    ∧ (∀ (os : List (LLMOracle × String)) (sid : String),
        (ChatAgent.chat_n os (ConversationMemoryManager.fresh sid)).message_count
          = 2 * os.length) := by
  constructor
  · intro o mem q
    constructor
    · simp [ChatAgent.chat, ConversationMemoryManager.add_user_message,
        ConversationMemoryManager.add_ai_message]
    · simp [ChatAgent.chat, ConversationMemoryManager.message_count,
        ConversationMemoryManager.add_user_message,
        ConversationMemoryManager.add_ai_message]
  · intro os sid
    rw [chat_n_message_count]
    simp [ConversationMemoryManager.fresh, ConversationMemoryManager.message_count]

/-- A memory manager holding 11 completed exchanges (22 messages), the
oldest being the user turn `"oldest"`; its window `k` is the configured
default of 10. -/
def c6_mem : ConversationMemoryManager :=
  { session_id := "s6"
    k := memory_window
    messages :=
      [⟨true, "oldest"⟩, ⟨false, "a0"⟩]
        ++ (List.replicate 10 [(⟨true, "u"⟩ : Message), ⟨false, "a"⟩]).flatten
    message_history :=
      [⟨true, "oldest"⟩, ⟨false, "a0"⟩]
        ++ (List.replicate 10 [(⟨true, "u"⟩ : Message), ⟨false, "a"⟩]).flatten }

set_option maxRecDepth 100000 in
/-- Claim C6 (code bug): `get_formatted_history` renders
`memory.chat_memory.messages` — the full unbounded log — and never
consults the `ConversationBufferWindowMemory` window (`k =
settings.memory_window = 10`).  On a conversation of 22 messages the
formatted prompt context contains all 22 role-prefixed lines, including
the oldest turn, which even the configured window (its last `2*k = 20`
messages) would have dropped. -/
theorem C6_window_not_applied :
    c6_mem.k = memory_window
    ∧ c6_mem.messages.length = 22
    ∧ c6_mem.window_buffer.length = 20
    ∧ ((⟨true, "oldest"⟩ : Message) ∈ c6_mem.window_buffer) = False
    ∧ pyContains c6_mem.get_formatted_history "oldest" = true
    ∧ c6_mem.get_formatted_history.data.count '\n' = 22 := by
  decide

/-- Claim C7: the document adapter keeps exactly the matches whose score
is strictly below the 0.8 threshold (lower-is-better polarity), and the
document sources it returns are in one-to-one correspondence with the
kept matches, in their filtered order. -/
theorem C7_relevance_filter (q ch rep : String) (docs : List (Document × ℚ))
    (h : filter_relevant docs ≠ []) :
    (query_documents q ch (some docs) (some rep)).success = true
    ∧ (query_documents q ch (some docs) (some rep)).response = pyStrip rep
    ∧ (query_documents q ch (some docs) (some rep)).sources
        = (filter_relevant docs).map (fun p => Source.doc (prepare_source p))
    ∧ filter_relevant docs = docs.filter (fun p => decide (p.2 < relevance_threshold))
    ∧ (∀ p ∈ filter_relevant docs, p.2 < relevance_threshold) := by
  have hfe : (filter_relevant docs).isEmpty = false := by
    cases hb : filter_relevant docs with
    | nil => exact absurd hb h
    | cons a t => rfl
  have hde : docs ≠ [] := by
    intro hnil
    exact h (by simp [hnil, filter_relevant])
  refine ⟨?_, ?_, ?_, rfl, ?_⟩
  · cases docs with
    | nil => exact absurd rfl hde
    | cons a t => simp [query_documents, hfe]
  · cases docs with
    | nil => exact absurd rfl hde
    | cons a t => simp [query_documents, hfe]
  · cases docs with
    | nil => exact absurd rfl hde
    | cons a t => simp [query_documents, hfe]
  · intro p hp
    rw [filter_relevant, List.mem_filter] at hp
    exact of_decide_eq_true hp.2

/-- Witness for C7: one match scored 0.3 passes the 0.8 threshold and
yields exactly one document source. -/
theorem C7_relevance_filter_witness :
    filter_relevant [(docA, mkRat 3 10)] ≠ []
    ∧ (query_documents "q" "" (some [(docA, mkRat 3 10)]) (some "doc answer")).success = true
    ∧ (query_documents "q" "" (some [(docA, mkRat 3 10)]) (some "doc answer")).sources
        = (filter_relevant [(docA, mkRat 3 10)]).map (fun p => Source.doc (prepare_source p)) :=
  ⟨by decide,
   (C7_relevance_filter "q" "" "doc answer" [(docA, mkRat 3 10)] (by decide)).1,
   (C7_relevance_filter "q" "" "doc answer" [(docA, mkRat 3 10)] (by decide)).2.2.1⟩

/-- Claim C8: in the Both branch the two adapters are invoked
unconditionally — the document adapter runs even though the search
adapter failed — and when the search adapter fails while the document
adapter succeeds with a non-empty answer, the combined result's sources
are exactly the document adapter's (all document-origin) and the final
answer is the synthesis reply, with no search failure surfaced. -/
theorem C8_both_branch (o : LLMOracle) (s : ChatState) (rep : String)
    (hsf : (search_and_respond s.query o.searchProvider o.searchLlm).success = false)
    (hds : (query_documents s.query s.chat_history o.docIndex o.docLlm).success = true)
    (hdr : (query_documents s.query s.chat_history o.docIndex o.docLlm).response ≠ "")
    (hf : o.finalLlm = some rep) :
    (both_node o s).search_results
        = some (search_and_respond s.query o.searchProvider o.searchLlm)
    ∧ (both_node o s).document_results
        = some (query_documents s.query s.chat_history o.docIndex o.docLlm)
    ∧ (combine_results_node o.finalLlm o.directLlm (both_node o s)).sources
        = (query_documents s.query s.chat_history o.docIndex o.docLlm).sources
    ∧ (combine_results_node o.finalLlm o.directLlm (both_node o s)).final_response
        = pyStrip rep
    ∧ (∀ x ∈ (combine_results_node o.finalLlm o.directLlm (both_node o s)).sources,
        ∃ ds, x = Source.doc ds) := by
  have hsr : (both_node o s).search_results
      = some (search_and_respond s.query o.searchProvider o.searchLlm) := by
    simp [both_node, search_node, document_node]
  have hdrr : (both_node o s).document_results
      = some (query_documents s.query s.chat_history o.docIndex o.docLlm) := by
    simp [both_node, search_node, document_node]
  have hdi : document_info_of (both_node o s) ≠ "" := by
    simp [document_info_of, hdrr, hds]
    exact hdr
  have hcomb :
      combine_results_node o.finalLlm o.directLlm (both_node o s)
        = { (both_node o s) with
              final_response := pyStrip rep
              sources := gathered_sources (both_node o s) } := by
    rw [combine_results_node.eq_def, if_neg (by simp [hdi]), hf]
  have hgs : gathered_sources (both_node o s)
      = (query_documents s.query s.chat_history o.docIndex o.docLlm).sources := by
    simp [gathered_sources, hsr, hdrr, hsf, hds]
  refine ⟨hsr, hdrr, ?_, ?_, ?_⟩
  · rw [hcomb]
    exact hgs
  · rw [hcomb]
  · intro x hx
    rw [hcomb] at hx
    simp only at hx
    rw [hgs] at hx
    exact query_documents_sources_are_docs s.query s.chat_history o.docIndex o.docLlm x hx

/-- The Both-branch oracle of the C8 witness: routing answers `"BOTH"`,
the search provider returns an empty list (so the search adapter fails),
the index returns one passing match, and the final synthesis answers. -/
def c8_oracle : LLMOracle :=
  ⟨some "BOTH", some [], none, some [(docA, mkRat 3 10)], some "doc answer", some "FINAL", none⟩

/-- Witness for C8: the Both branch at the concrete oracle. -/
theorem C8_both_branch_witness :
    (search_and_respond "q" (some []) none).success = false
    ∧ (combine_results_node c8_oracle.finalLlm c8_oracle.directLlm
          (both_node c8_oracle (initial_chat_state "q" ""))).sources
        = (query_documents "q" "" (some [(docA, mkRat 3 10)]) (some "doc answer")).sources
    ∧ (combine_results_node c8_oracle.finalLlm c8_oracle.directLlm
          (both_node c8_oracle (initial_chat_state "q" ""))).final_response
        = pyStrip "FINAL" :=
  ⟨by decide,
   (C8_both_branch c8_oracle (initial_chat_state "q" "") "FINAL"
      (by decide) (by decide) (by decide) rfl).2.2.1,
   (C8_both_branch c8_oracle (initial_chat_state "q" "") "FINAL"
      (by decide) (by decide) (by decide) rfl).2.2.2.1⟩

/-- Counterexample to Claim C9: under total outage — every adapter call,
the routing call and the Direct fallback's own model call all fail — the
graph still produces the fixed apology text, and `ChatAgent.chat` returns
it with `success=True`, not the claimed `success=False`. -/
theorem C9_outage_counterexample :
    (ChatAgent.chat outage_oracle (ConversationMemoryManager.fresh "s") "q").1.success = true
    ∧ (ChatAgent.chat outage_oracle (ConversationMemoryManager.fresh "s") "q").1.response
        = "I apologize, but I encountered an error processing your request."
    ∧ (ChatAgent.chat outage_oracle (ConversationMemoryManager.fresh "s") "q").1.sources
        = [] := by
  decide

/-- Claim C9 (amended): `chat` reports `success=True` on every run of the
workflow — all provider and model failures, including the Direct
fallback's own model failure, are absorbed inside the graph nodes and
still yield answer text (the fixed apology under total outage).
`success=False` is produced only by the outer exception handler of
`chat`, i.e. when an unexpected exception escapes the graph machinery
itself, which no modelled execution path does — not by the Direct
fallback's model failure. -/
theorem C9_success_flag (o : LLMOracle) (mem : ConversationMemoryManager) (q : String) :
    (ChatAgent.chat o mem q).1.success = true
    ∧ (ChatAgent.chat outage_oracle mem q).1.response
        = "I apologize, but I encountered an error processing your request." := by
  constructor
  · rfl
  · rfl

/-- Claim C10: the search adapter's web snippet is the first 200
characters of the provider result's content with `"..."` appended
unconditionally (so even short contents end in `"..."`), whereas the
document preview appends `"..."` only when the chunk exceeds 200
characters. -/
theorem C10_snippet_truncation :
    (∀ (q rep : String) (results : List SearchResult), results ≠ [] →
      (search_and_respond q (some results) (some rep)).sources
        = results.map (fun r => Source.web (mk_web_source r)))
    ∧ (∀ r : SearchResult, (mk_web_source r).snippet = pySlice r.content 200 ++ "...")
    ∧ (∀ r : SearchResult, ∃ pre, (mk_web_source r).snippet = pre ++ "...")
    ∧ (∀ (d : Document) (sc : ℚ), d.page_content.length ≤ 200 →
        (prepare_source (d, sc)).preview = d.page_content)
    ∧ (∀ (d : Document) (sc : ℚ), 200 < d.page_content.length →
        (prepare_source (d, sc)).preview = pySlice d.page_content 200 ++ "...") := by
  refine ⟨?_, ?_, ?_, ?_, ?_⟩
  · intro q rep results hne
    cases results with
    | nil => exact absurd rfl hne
    | cons a t => simp [search_and_respond, perform_search]
  · intro r
    rfl
  · intro r
    exact ⟨pySlice r.content 200, rfl⟩
  · intro d sc hle
    simp [prepare_source, Nat.not_lt.mpr hle]
  · intro d sc hlt
    simp [prepare_source, hlt]

/-- Witness for C10: a 2-character content still gets a `"..."`-suffixed
snippet, while a short document chunk's preview has no suffix. -/
theorem C10_snippet_truncation_witness :
    (search_and_respond "q" (some [⟨"t", "u", "hi"⟩]) (some "rep")).sources
      = [Source.web ⟨"t", "u", "hi..."⟩]
    ∧ (mk_web_source ⟨"t", "u", "hi"⟩).snippet = "hi..."
    ∧ (prepare_source (docA, mkRat 3 10)).preview = "content of the report" := by
  refine ⟨?_, by decide, ?_⟩
  · rw [C10_snippet_truncation.1 "q" "rep" [⟨"t", "u", "hi"⟩] (by decide)]
    decide
  · rw [C10_snippet_truncation.2.2.2.1 (docA, mkRat 3 10).1 (mkRat 3 10) (by decide)]
    decide
